import Mathlib

/-!
Verification development for a CAD feature-extraction and material-substitution
server written in JavaScript.  The two verified cores are:

* `parseStepFile` — a line-oriented scanner of STEP exchange files that
  accumulates a bounding box, product name, material hint, annotations and
  circle radii, then derives canonical dimensions and an inferred material;
* the material recommender — `calculateSimilarityScore`, `findAlternatives`,
  `compareMaterials` and `calculateWeight`.

JavaScript numbers are modelled by `JSNum`: exact rationals extended with the
special values `NaN`, `+Infinity` and `-Infinity`, with the IEEE-style
propagation rules JavaScript exposes (comparisons involving NaN are false,
`Math.min`/`Math.max` propagate NaN, and so on).  Rounding of finite doubles is
idealised away: finite values are exact rationals.
-/

attribute [local semireducible] Rat.add Rat.mul Rat.sub Rat.inv Rat.ofScientific

/-- Model of a JavaScript number: NaN, the two infinities, or a finite value
(idealised as an exact rational). -/
inductive JSNum where
  | nan : JSNum
  | posInf : JSNum
  | negInf : JSNum
  | num : ℚ → JSNum
deriving DecidableEq, Repr

namespace JSNum

/-- JavaScript `Math.min`: NaN-propagating minimum. -/
def jsMin : JSNum → JSNum → JSNum
  | nan, _ => nan
  | _, nan => nan
  | negInf, _ => negInf
  | _, negInf => negInf
  | posInf, b => b
  | a, posInf => a
  | num a, num b => num (min a b)

/-- JavaScript `Math.max`: NaN-propagating maximum. -/
def jsMax : JSNum → JSNum → JSNum
  | nan, _ => nan
  | _, nan => nan
  | posInf, _ => posInf
  | _, posInf => posInf
  | negInf, b => b
  | a, negInf => a
  | num a, num b => num (max a b)

/-- JavaScript subtraction `a - b` on numbers. -/
def jsSub : JSNum → JSNum → JSNum
  | nan, _ => nan
  | _, nan => nan
  | posInf, posInf => nan
  | posInf, _ => posInf
  | negInf, negInf => nan
  | negInf, _ => negInf
  | num _, posInf => negInf
  | num _, negInf => posInf
  | num a, num b => num (a - b)

/-- JavaScript `Math.abs`. -/
def jsAbs : JSNum → JSNum
  | nan => nan
  | posInf => posInf
  | negInf => posInf
  | num a => num |a|

/-- JavaScript multiplication. -/
def jsMul : JSNum → JSNum → JSNum
  | nan, _ => nan
  | _, nan => nan
  | posInf, posInf => posInf
  | posInf, negInf => negInf
  | negInf, posInf => negInf
  | negInf, negInf => posInf
  | posInf, num b => if b = 0 then nan else if 0 < b then posInf else negInf
  | negInf, num b => if b = 0 then nan else if 0 < b then negInf else posInf
  | num a, posInf => if a = 0 then nan else if 0 < a then posInf else negInf
  | num a, negInf => if a = 0 then nan else if 0 < a then negInf else posInf
  | num a, num b => num (a * b)

/-- JavaScript division (signed zeroes are collapsed to `0`, so `q / ±∞ = 0`
and division of a nonzero finite value by `0` gives the infinity carrying the
numerator's sign). -/
def jsDiv : JSNum → JSNum → JSNum
  | nan, _ => nan
  | _, nan => nan
  | posInf, posInf => nan
  | posInf, negInf => nan
  | negInf, posInf => nan
  | negInf, negInf => nan
  | posInf, num b => if 0 ≤ b then posInf else negInf
  | negInf, num b => if 0 ≤ b then negInf else posInf
  | num _, posInf => num 0
  | num _, negInf => num 0
  | num a, num b =>
      if b = 0 then (if a = 0 then nan else if 0 < a then posInf else negInf)
      else num (a / b)

/-- JavaScript strict `<` (false whenever NaN is involved). -/
def jsLt : JSNum → JSNum → Bool
  | nan, _ => false
  | _, nan => false
  | posInf, _ => false
  | _, posInf => true
  | negInf, negInf => false
  | negInf, _ => true
  | num _, negInf => false
  | num a, num b => decide (a < b)

/-- JavaScript `<=` (false whenever NaN is involved). -/
def jsLe : JSNum → JSNum → Bool
  | nan, _ => false
  | _, nan => false
  | _, posInf => true
  | posInf, _ => false
  | negInf, _ => true
  | num _, negInf => false
  | num a, num b => decide (a ≤ b)

/-- JavaScript truthiness of a number: `0` and `NaN` are falsy. -/
def jsTruthy : JSNum → Bool
  | nan => false
  | posInf => true
  | negInf => true
  | num q => decide (q ≠ 0)

/-- JavaScript strict inequality `x !== 0` on numbers (true for NaN). -/
def jsNe0 : JSNum → Bool
  | num q => decide (q ≠ 0)
  | _ => true

/-- JavaScript `Math.max(...list)`: fold of `jsMax` starting from `-Infinity`. -/
def jsMaxList (l : List JSNum) : JSNum := l.foldl jsMax negInf

/-- The value is a finite number. -/
def isNum : JSNum → Bool
  | num _ => true
  | _ => false

end JSNum

open JSNum

/-! ## String scanning primitives

These model the handful of JavaScript string/regex operations the scanner
uses: `String.prototype.includes`, first-match extraction for the regexes
`/'([^']+)'/`, `/\(([^)]+)\)/` and `/CIRCLE\s*\([^)]*\)\s*,\s*([0-9.]+)/`,
`String.prototype.split(',')`, `String.prototype.trim`,
`String.prototype.toLowerCase` (ASCII fragment) and the global `parseFloat`. -/

/-- Substring containment on character lists: the needle occurs contiguously
somewhere in the haystack. -/
def containsSubAux (needle : List Char) : List Char → Bool
  | [] => needle.isEmpty
  | c :: rest => needle.isPrefixOf (c :: rest) || containsSubAux needle rest

/-- JavaScript `haystack.includes(needle)`, as substring containment. -/
def containsSub (s sub : String) : Bool := containsSubAux sub.data s.data

/-- ASCII lowercasing of one character (JavaScript `toLowerCase` restricted to
the ASCII range, which covers every keyword the scanner searches for). -/
def asciiLowerChar (c : Char) : Char :=
  if 'A' ≤ c ∧ c ≤ 'Z' then Char.ofNat (c.toNat + 32) else c

/-- ASCII lowercasing of a string. -/
def asciiLower (s : String) : String := String.mk (s.data.map asciiLowerChar)

/-- JavaScript whitespace test for the characters relevant here. -/
def isWS (c : Char) : Bool := c = ' ' ∨ c = '\t' ∨ c = '\n' ∨ c = '\r'

/-- Trim whitespace from both ends (JavaScript `String.prototype.trim`). -/
def trimWS (cs : List Char) : List Char :=
  ((cs.dropWhile isWS).reverse.dropWhile isWS).reverse

/-- JavaScript `split(',')` on a character list: splits at every comma and
keeps empty segments (so the empty string yields one empty segment). -/
def splitOnComma : List Char → List (List Char)
  | [] => [[]]
  | c :: rest =>
    if c = ',' then [] :: splitOnComma rest
    else
      match splitOnComma rest with
      | [] => [[c]]
      | g :: gs => (c :: g) :: gs

/-- Numeric value of a list of decimal digit characters. -/
def digitsVal (cs : List Char) : ℚ :=
  cs.foldl (fun acc c => acc * 10 + ((c.toNat - 48 : ℕ) : ℚ)) 0

/-- Value of a fractional digit string (the part after the decimal point). -/
def fracVal (cs : List Char) : ℚ := digitsVal cs / (10 : ℚ) ^ cs.length

/-- Parse an optional exponent suffix of a float literal; a bare `e` with no
digits contributes exponent `0` (JavaScript stops parsing there). -/
def parseExpSuffix (cs : List Char) : ℤ :=
  match cs with
  | 'e' :: rest | 'E' :: rest =>
    match rest with
    | '+' :: r => (digitsVal (r.takeWhile Char.isDigit)).num
    | '-' :: r => -(digitsVal (r.takeWhile Char.isDigit)).num
    | r => (digitsVal (r.takeWhile Char.isDigit)).num
  | _ => 0

/-- Magnitude part of `parseFloat`, after sign handling: an `Infinity`
literal, or decimal digits with optional fraction and exponent; anything
without a leading digit or fraction digit is NaN. -/
def parseFloatMag (cs : List Char) (neg : Bool) : JSNum :=
  if cs.take 8 = "Infinity".data then (if neg then JSNum.negInf else JSNum.posInf)
  else
    let intPart := cs.takeWhile Char.isDigit
    let afterInt := cs.drop intPart.length
    let fracPart :=
      match afterInt with
      | '.' :: r => r.takeWhile Char.isDigit
      | _ => []
    let afterFrac :=
      match afterInt with
      | '.' :: r => r.drop fracPart.length
      | _ => afterInt
    if intPart = [] ∧ fracPart = [] then JSNum.nan
    else
      let mantissa : ℚ := digitsVal intPart + fracVal fracPart
      let v : ℚ := mantissa * (10 : ℚ) ^ parseExpSuffix afterFrac
      JSNum.num (if neg then -v else v)

/-- JavaScript `parseFloat`: skip leading whitespace, optional sign, then the
longest numeric prefix; no numeric prefix yields NaN. -/
def parseFloat (s : String) : JSNum :=
  match s.data.dropWhile isWS with
  | '+' :: rest => parseFloatMag rest false
  | '-' :: rest => parseFloatMag rest true
  | rest => parseFloatMag rest false

/-- First match of the regex pattern quote, one-or-more non-quotes, quote —
returns the capture (the text between the quotes), scanning left to right with
the same restart behaviour as a regex engine. -/
def firstQuoted : List Char → Option (List Char)
  | [] => none
  | c :: rest =>
    if c = '\'' then
      let content := rest.takeWhile (fun d => d ≠ '\'')
      if content ≠ [] ∧ rest.drop content.length ≠ [] then some content
      else firstQuoted rest
    else firstQuoted rest

/-- First match of the regex pattern open-paren, one-or-more non-close-parens,
close-paren — returns the whole matched text including both parentheses
(JavaScript `match(...)[0]`). -/
def firstParenMatch : List Char → Option (List Char)
  | [] => none
  | c :: rest =>
    if c = '(' then
      let content := rest.takeWhile (fun d => d ≠ ')')
      if content ≠ [] ∧ rest.drop content.length ≠ [] then
        some ('(' :: content ++ [')'])
      else firstParenMatch rest
    else firstParenMatch rest

/-- Attempt to match `CIRCLE\s*\([^)]*\)\s*,\s*([0-9.]+)` at the head of the
character list, returning the captured digit-and-dot run. -/
def circleMatchAt (cs : List Char) : Option (List Char) :=
  if cs.take 6 = "CIRCLE".data then
    let r1 := (cs.drop 6).dropWhile isWS
    match r1 with
    | '(' :: r2 =>
      let content := r2.takeWhile (fun d => d ≠ ')')
      match r2.drop content.length with
      | ')' :: r3 =>
        let r4 := r3.dropWhile isWS
        match r4 with
        | ',' :: r5 =>
          let r6 := r5.dropWhile isWS
          let grp := r6.takeWhile (fun c => c.isDigit ∨ c = '.')
          if grp ≠ [] then some grp else none
        | _ => none
      | _ => none
    | _ => none
  else none

/-- First match of the CIRCLE radius regex anywhere in the line, returning the
captured radius text. -/
def circleCapture : List Char → Option (List Char)
  | [] => none
  | c :: rest =>
    match circleMatchAt (c :: rest) with
    | some g => some g
    | none => circleCapture rest

/-! ## The STEP-file scanner

Model of `parseStepFile`: a single forward pass over the lines of the file
accumulating a `ScanState`, followed by a derivation phase (the `close`
handler) that computes canonical dimensions and infers a material.  Stream
read errors reject the promise and are outside this pure model; every other
input produces a result. -/

/-- Accumulator state of the line scan, mirroring the local variables of
`parseStepFile` (`fileContent`, `productName`, `materialInfo`, `boundingBox`,
`cartesianPoints`, `annotations`, `circles`).  The bounding box starts at
`(+∞, +∞, +∞)`/`(-∞, -∞, -∞)`. -/
structure ScanState where
  fileContent : String
  productName : String
  materialInfo : String
  minX : JSNum
  minY : JSNum
  minZ : JSNum
  maxX : JSNum
  maxY : JSNum
  maxZ : JSNum
  cartesianPoints : List (List JSNum)
  annotations : List String
  circles : List JSNum
deriving DecidableEq, Repr

/-- Initial scan state. -/
def initState : ScanState :=
  { fileContent := ""
    productName := ""
    materialInfo := ""
    minX := JSNum.posInf, minY := JSNum.posInf, minZ := JSNum.posInf
    maxX := JSNum.negInf, maxY := JSNum.negInf, maxZ := JSNum.negInf
    cartesianPoints := []
    annotations := []
    circles := [] }

/-- Accumulate the raw text (`fileContent += line + '\n'`). -/
def appendContent (st : ScanState) (line : String) : ScanState :=
  { st with fileContent := st.fileContent ++ line ++ "\n" }

/-- Product-name extraction: the first line containing `PRODUCT` and a quote
sets `productName` to the first quoted text. -/
def processProduct (st : ScanState) (line : String) : ScanState :=
  if containsSub line "PRODUCT" ∧ containsSub line "'" ∧ st.productName = "" then
    match firstQuoted line.data with
    | some s => { st with productName := String.mk s }
    | none => st
  else st

/-- Material-hint extraction: the first line whose lowercasing contains
`material` or `matériau` and that contains a quote sets `materialInfo`. -/
def processMaterial (st : ScanState) (line : String) : ScanState :=
  if (containsSub (asciiLower line) "material" ∨ containsSub (asciiLower line) "matériau") ∧
      containsSub line "'" ∧ st.materialInfo = "" then
    match firstQuoted line.data with
    | some s => { st with materialInfo := String.mk s }
    | none => st
  else st

/-- Annotation extraction: every line containing `ANNOTATION`, `NOTE` or
`REMARK` appends its first quoted text. -/
def processAnnot (st : ScanState) (line : String) : ScanState :=
  if containsSub line "ANNOTATION" ∨ containsSub line "NOTE" ∨ containsSub line "REMARK" then
    match firstQuoted line.data with
    | some s => { st with annotations := st.annotations ++ [String.mk s] }
    | none => st
  else st

/-- The coordinate values a `CARTESIAN_POINT` line yields: the first
parenthesized group, stripped of parentheses, split on commas, each token
trimmed and passed through `parseFloat`. -/
def lineCoords (line : String) : Option (List JSNum) :=
  (firstParenMatch line.data).map (fun matched =>
    let coordStr := matched.filter (fun c => ¬(c = '(' ∨ c = ')'))
    (splitOnComma coordStr).map (fun cs => parseFloat (String.mk (trimWS cs))))

/-- Cartesian-point extraction: a line containing `CARTESIAN_POINT` whose
parenthesized group splits into at least three tokens appends the parsed
coordinates and folds the first three into the bounding box with
`Math.min`/`Math.max`. -/
def processCartesian (st : ScanState) (line : String) : ScanState :=
  if containsSub line "CARTESIAN_POINT" then
    match lineCoords line with
    | some coords =>
      if 3 ≤ coords.length then
        { st with
          cartesianPoints := st.cartesianPoints ++ [coords]
          minX := jsMin st.minX (coords.getD 0 JSNum.nan)
          minY := jsMin st.minY (coords.getD 1 JSNum.nan)
          minZ := jsMin st.minZ (coords.getD 2 JSNum.nan)
          maxX := jsMax st.maxX (coords.getD 0 JSNum.nan)
          maxY := jsMax st.maxY (coords.getD 1 JSNum.nan)
          maxZ := jsMax st.maxZ (coords.getD 2 JSNum.nan) }
      else st
    | none => st
  else st

/-- Circle extraction: a line containing `CIRCLE` whose radius regex matches
appends the parsed radius. -/
def processCircle (st : ScanState) (line : String) : ScanState :=
  if containsSub line "CIRCLE" then
    match circleCapture line.data with
    | some g => { st with circles := st.circles ++ [parseFloat (String.mk g)] }
    | none => st
  else st

/-- One line of the scan: the five extraction blocks run in source order on
independent parts of the state. -/
def processLine (st : ScanState) (line : String) : ScanState :=
  processCircle
    (processCartesian
      (processAnnot
        (processMaterial
          (processProduct (appendContent st line) line) line) line) line) line

/-- The whole forward pass over the file's lines. -/
def scanLines (lines : List String) : ScanState :=
  lines.foldl processLine initState

/-- Canonical dimension triple. -/
structure Dims where
  length : JSNum
  width : JSNum
  height : JSNum
deriving DecidableEq, Repr

/-- One step of JavaScript stable insertion into a descending-sorted list,
using the comparator `(a, b) => b - a` (an element moves past `y` exactly when
the comparator says `y` sorts strictly before it; NaN comparator results keep
the original order). -/
def insertDescJS (x : JSNum) : List JSNum → List JSNum
  | [] => [x]
  | y :: ys =>
    if jsLt (jsSub x y) (JSNum.num 0) = true then y :: insertDescJS x ys
    else x :: y :: ys

/-- JavaScript `array.sort((a, b) => b - a)`: stable descending sort. -/
def sortDescJS (l : List JSNum) : List JSNum := l.foldr insertDescJS []

/-- The three raw bounding-box extents `|max - min|` per axis. -/
def rawExtents (st : ScanState) : List JSNum :=
  [jsAbs (jsSub st.maxX st.minX), jsAbs (jsSub st.maxY st.minY), jsAbs (jsSub st.maxZ st.minZ)]

/-- Step-2 canonicalization: sort the raw extents descending and assign
`length`, `width`, `height` in that order. -/
def canonicalDims (st : ScanState) : Dims :=
  let sorted := sortDescJS (rawExtents st)
  { length := sorted.getD 0 JSNum.nan
    width := sorted.getD 1 JSNum.nan
    height := sorted.getD 2 JSNum.nan }

/-- Dimension derivation of the `close` handler: if axis 0 of the bounding box
was touched, canonicalize the extents and apply the annular override for
washer-like parts (with the hardcoded special case for the
`Rondelleintercloche` product); otherwise fall back to `(30, 30, 5)`. -/
def deriveDimensions (st : ScanState) : Dims :=
  if st.minX ≠ JSNum.posInf ∧ st.maxX ≠ JSNum.negInf then
    let c := canonicalDims st
    if st.circles ≠ [] ∧ containsSub (asciiLower st.productName) "rondelle" then
      let largestRadius := jsMaxList st.circles
      let d : Dims :=
        { length := jsMul largestRadius (JSNum.num 2)
          width := jsMul largestRadius (JSNum.num 2)
          height := c.height }
      if containsSub st.productName "Rondelleintercloche" then
        { length := JSNum.num 30, width := JSNum.num 30, height := JSNum.num 5 }
      else d
    else c
  else { length := JSNum.num 30, width := JSNum.num 30, height := JSNum.num 5 }

/-- Material inference of the `close` handler: an explicit hint wins,
otherwise a lowercase keyword search over the whole accumulated text with the
cascade `acier` → steel, `aluminium`/`aluminum` → aluminum,
`titanium`/`titane` → titanium, default steel. -/
def inferMaterial (materialInfo : String) (fileContent : String) : String :=
  if materialInfo ≠ "" then materialInfo
  else if containsSub (asciiLower fileContent) "acier" then "AISI 1018 Steel"
  else if containsSub (asciiLower fileContent) "aluminium" ∨
          containsSub (asciiLower fileContent) "aluminum" then "Aluminum 6061-T6"
  else if containsSub (asciiLower fileContent) "titanium" ∨
          containsSub (asciiLower fileContent) "titane" then "Ti-6Al-4V"
  else "AISI 1018 Steel"

/-- The record `parseStepFile` resolves with. -/
structure StepResult where
  productName : String
  dimensions : Dims
  material : String
  annotations : List String
  cartesianPoints : List (List JSNum)
  circles : List JSNum
deriving DecidableEq, Repr

/-- The whole extractor: scan all lines, then derive dimensions and material. -/
def parseStepFile (lines : List String) : StepResult :=
  let st := scanLines lines
  { productName := st.productName
    dimensions := deriveDimensions st
    material := inferMaterial st.materialInfo st.fileContent
    annotations := st.annotations
    cartesianPoints := st.cartesianPoints
    circles := st.circles }

/-! ## The material recommender

Models of `calculateWeight`, `calculateSimilarityScore`, `compareMaterials`
and `findAlternatives`.  The sqlite table is modelled as a list of rows in
rowid order: `db.get` with a name filter is `List.find?`, `db.all` with an id
filter is `List.filter`.  Database I/O errors reject the promises and are
outside this pure model. -/

/-- A row of the `materials` table.  `density` and `cost_per_kg` are declared
`NOT NULL`; the remaining physical properties are nullable. -/
structure Material where
  id : ℕ
  name : String
  category : String
  density : ℚ
  cost_per_kg : ℚ
  tensile_strength : Option ℚ
  yield_strength : Option ℚ
  elastic_modulus : Option ℚ
  thermal_expansion : Option ℚ
  thermal_conductivity : Option ℚ
  electrical_resistivity : Option ℚ
  corrosion_resistance : Option String
  machinability : Option ℚ
  weldability : Option ℚ
  common_uses : Option String
deriving DecidableEq, Repr

/-- The weights of the scored properties, in the iteration order of the
`properties` object (`tensile_strength`, `yield_strength`, `elastic_modulus`,
`thermal_expansion`, `thermal_conductivity`, `corrosion_resistance`,
`machinability`, `weldability`). -/
def propWeightsVals : List ℚ := [10, 10, 8, 5, 5, 7, 6, 5]

/-- Sum of all property weights (`reduce` over the table), which is 56. -/
def totalWeight : ℚ := propWeightsVals.foldl (fun sum w => sum + w) 0

/-- Contribution of one numeric property: skipped when either side is null,
otherwise `(1 - min(diff, 1)) * 100` scaled by `weight / totalWeight`, where
`diff` is the absolute difference relative to the larger magnitude (both
values zero count as a perfect match). -/
def numScore (o a : Option ℚ) (weight : ℚ) : ℚ :=
  match o, a with
  | some x, some y =>
    let maxVal := max |x| |y|
    if 0 < maxVal then
      let diff := |x - y| / maxVal
      ((1 - min diff 1) * 100) * weight / totalWeight
    else 100 * weight / totalWeight
  | _, _ => 0

/-- Contribution of one string property: full weight on a case-insensitive
exact match, zero otherwise, skipped when either side is null. -/
def strScore (o a : Option String) (weight : ℚ) : ℚ :=
  match o, a with
  | some x, some y =>
    if asciiLower x = asciiLower y then 100 * weight / totalWeight else 0
  | _, _ => 0

/-- `calculateSimilarityScore`: weighted per-property similarity plus a flat
`+10` same-category bonus, capped at `100`. -/
def calculateSimilarityScore (original alternative : Material) : ℚ :=
  let score :=
    numScore original.tensile_strength alternative.tensile_strength 10 +
    numScore original.yield_strength alternative.yield_strength 10 +
    numScore original.elastic_modulus alternative.elastic_modulus 8 +
    numScore original.thermal_expansion alternative.thermal_expansion 5 +
    numScore original.thermal_conductivity alternative.thermal_conductivity 5 +
    strScore original.corrosion_resistance alternative.corrosion_resistance 7 +
    numScore original.machinability alternative.machinability 6 +
    numScore original.weldability alternative.weldability 5
  let score := if original.category = alternative.category then score + 10 else score
  min score 100

/-- A before/after comparison record. -/
structure Delta where
  original : JSNum
  alternative : JSNum
  difference : JSNum
  percent_change : JSNum
deriving DecidableEq, Repr

/-- Build a `Delta` the way `compareMaterials` does: `difference` is
`alternative - original`, and `percent_change` is `difference / original *
100` behind an `original !== 0` guard, else `0`. -/
def mkDelta (o a : JSNum) : Delta :=
  let diff := jsSub a o
  { original := o
    alternative := a
    difference := diff
    percent_change :=
      if jsNe0 o = true then jsMul (jsDiv diff o) (JSNum.num 100) else JSNum.num 0 }

/-- The comparison record `compareMaterials` returns: weight and cost deltas,
plus a delta for each mechanical property present on both sides. -/
structure Comparison where
  weight : Delta
  cost : Delta
  tensile_strength : Option Delta
  yield_strength : Option Delta
  elastic_modulus : Option Delta
deriving DecidableEq, Repr

/-- The volume `compareMaterials` uses: the product of the dimensions when the
record is present and all three fields are truthy, the default `1000`
otherwise. -/
def volumeOf (dims : Option Dims) : JSNum :=
  match dims with
  | some d =>
    if jsTruthy d.length ∧ jsTruthy d.width ∧ jsTruthy d.height then
      jsMul (jsMul d.length d.width) d.height
    else JSNum.num 1000
  | none => JSNum.num 1000

/-- Body of `compareMaterials` once the volume is fixed: weights are
`density × volume / 1,000,000`, costs are `cost_per_kg × weight`, and the
mechanical properties compare raw values. -/
def compareAt (original alternative : Material) (volume : JSNum) : Comparison :=
  let originalWeight := jsDiv (jsMul (JSNum.num original.density) volume) (JSNum.num 1000000)
  let altWeight := jsDiv (jsMul (JSNum.num alternative.density) volume) (JSNum.num 1000000)
  let originalCost := jsMul (JSNum.num original.cost_per_kg) originalWeight
  let altCost := jsMul (JSNum.num alternative.cost_per_kg) altWeight
  let mech : Option ℚ → Option ℚ → Option Delta := fun x y =>
    match x, y with
    | some xv, some yv => some (mkDelta (JSNum.num xv) (JSNum.num yv))
    | _, _ => none
  { weight := mkDelta originalWeight altWeight
    cost := mkDelta originalCost altCost
    tensile_strength := mech original.tensile_strength alternative.tensile_strength
    yield_strength := mech original.yield_strength alternative.yield_strength
    elastic_modulus := mech original.elastic_modulus alternative.elastic_modulus }

/-- `compareMaterials`: compute the volume from the dimensions record (with
the silent default) and compare at that volume. -/
def compareMaterials (original alternative : Material) (dims : Option Dims) : Comparison :=
  compareAt original alternative (volumeOf dims)

/-- `calculateWeight`: reject NaN and non-positive volumes, then
`density × volume / 1,000,000`, with the default density `7.85` when the
material name is not in the catalog. -/
def calculateWeight (materialName : String) (volume : JSNum) (catalog : List Material) :
    Except String JSNum :=
  if volume = JSNum.nan then Except.error "Invalid volume value"
  else if jsLe volume (JSNum.num 0) = true then Except.error "Volume must be greater than zero"
  else
    match catalog.find? (fun m => m.name = materialName) with
    | none => Except.ok (jsDiv (jsMul (JSNum.num (7.85 : ℚ)) volume) (JSNum.num 1000000))
    | some row => Except.ok (jsDiv (jsMul (JSNum.num row.density) volume) (JSNum.num 1000000))

/-- One alternative as returned by `findAlternatives`: the candidate row, its
similarity score, and the attached comparison. -/
structure ScoredAlt where
  material : Material
  similarity_score : ℚ
  comparison : Comparison
deriving DecidableEq, Repr

/-- One step of JavaScript stable insertion for the sort
`(a, b) => b.similarity_score - a.similarity_score`. -/
def insertByScore (x : Material × ℚ) : List (Material × ℚ) → List (Material × ℚ)
  | [] => [x]
  | y :: ys => if x.2 < y.2 then y :: insertByScore x ys else x :: y :: ys

/-- Stable descending sort of scored candidates. -/
def sortByScoreDesc (l : List (Material × ℚ)) : List (Material × ℚ) :=
  l.foldr insertByScore []

/-- The scored candidate list: every catalog row except the reference (by id),
in catalog order, paired with its similarity score. -/
def scoredCandidates (orig : Material) (catalog : List Material) : List (Material × ℚ) :=
  (catalog.filter (fun m => m.id ≠ orig.id)).map
    (fun m => (m, calculateSimilarityScore orig m))

/-- `findAlternatives`: look the reference up by name (empty result when
missing), score all other rows, sort descending, truncate to the top 5 and
attach comparisons. -/
def findAlternatives (materialName : String) (catalog : List Material) (dims : Option Dims) :
    List ScoredAlt :=
  match catalog.find? (fun m => m.name = materialName) with
  | none => []
  | some orig =>
    ((sortByScoreDesc (scoredCandidates orig catalog)).take 5).map
      (fun p =>
        { material := p.1
          similarity_score := p.2
          comparison := compareMaterials orig p.1 dims })

/-! ## Auxiliary predicates and concrete fixtures used by the verification -/

/-- The bounding-box-and-points part of the scan state, used to state that a
line left the accumulated geometry untouched. -/
def bboxPoints (st : ScanState) :
    JSNum × JSNum × JSNum × JSNum × JSNum × JSNum × List (List JSNum) :=
  (st.minX, st.minY, st.minZ, st.maxX, st.maxY, st.maxZ, st.cartesianPoints)

/-- The value is not an infinity (it is NaN or finite). -/
def noInf : JSNum → Bool
  | JSNum.posInf => false
  | JSNum.negInf => false
  | _ => true

/-- The promise was rejected (the computation returned an error). -/
def isErr : Except String JSNum → Bool
  | Except.error _ => true
  | Except.ok _ => false

/-- A well-formed finite delta: all four components are finite numbers (never
NaN or an infinity), the difference is `alternative - original`, and the
percent change is `difference / original × 100` behind the `original !== 0`
guard, else exactly `0`. -/
def deltaOk (d : Delta) : Bool :=
  isNum d.original && isNum d.alternative && isNum d.difference && isNum d.percent_change &&
  decide (d.difference = jsSub d.alternative d.original) &&
  decide (d.percent_change =
    if jsNe0 d.original = true then jsMul (jsDiv d.difference d.original) (JSNum.num 100)
    else JSNum.num 0)

/-- A washer file whose product name is the hardcoded literal: one circle of
radius 10 and a 4 × 4 × 7 point cloud. -/
def exIntercloche : List String :=
  ["PRODUCT('Rondelleintercloche')", "CIRCLE(#1),10.0",
   "CARTESIAN_POINT((0.,0.,0.))", "CARTESIAN_POINT((4.,4.,7.))"]

/-- A generic washer file (product name contains `rondelle` but not the
hardcoded literal): one circle of radius 10 and a 4 × 4 × 7 point cloud. -/
def exRondelleA : List String :=
  ["PRODUCT('rondelle A')", "CIRCLE(#1),10.0",
   "CARTESIAN_POINT((0.,0.,0.))", "CARTESIAN_POINT((4.,4.,7.))"]

/-- A washer file whose circle (radius 1) is much smaller than its
10 × 10 × 10 point cloud. -/
def exRondelleB : List String :=
  ["PRODUCT('rondelle B')", "CIRCLE(#1),1.0",
   "CARTESIAN_POINT((0.,0.,0.))", "CARTESIAN_POINT((10.,10.,10.))"]

/-- A clean two-point stream with extents 4 × 4 × 7. -/
def exCleanPoints : List String :=
  ["CARTESIAN_POINT((0.,0.,0.))", "CARTESIAN_POINT((4.,4.,7.))"]

/-- A point line whose three comma-separated tokens are not numeric. -/
def exBadPointLine : String := "CARTESIAN_POINT((a,b,c))"

/-- A file whose text mentions both steel (English) and aluminum. -/
def exSteelAlu : List String := ["STEEL ALUMINUM"]

/-- A two-point stream whose second point carries a literal `Infinity`
x-coordinate, which `parseFloat` accepts: the derived length becomes
`+Infinity`. -/
def exInfinity : List String :=
  ["CARTESIAN_POINT((0.,0.,0.))", "CARTESIAN_POINT((Infinity,1.,1.))"]

/-- A file whose text mentions titanium in French. -/
def exTitane : List String := ["TITANE PART"]

/-- A catalog row used in concrete witnesses: plain steel-category entry with
density 1 and no optional properties. -/
def mA : Material :=
  { id := 1, name := "A", category := "Steel", density := 1, cost_per_kg := 1
    tensile_strength := none, yield_strength := none, elastic_modulus := none
    thermal_expansion := none, thermal_conductivity := none
    electrical_resistivity := none, corrosion_resistance := none
    machinability := none, weldability := none, common_uses := none }

/-- A second catalog row: steel category, density 2. -/
def mB : Material :=
  { id := 2, name := "B", category := "Steel", density := 2, cost_per_kg := 1
    tensile_strength := none, yield_strength := none, elastic_modulus := none
    thermal_expansion := none, thermal_conductivity := none
    electrical_resistivity := none, corrosion_resistance := none
    machinability := none, weldability := none, common_uses := none }

/-- A third catalog row: different category, density 3. -/
def mC : Material :=
  { id := 3, name := "C", category := "Plastic", density := 3, cost_per_kg := 2
    tensile_strength := none, yield_strength := none, elastic_modulus := none
    thermal_expansion := none, thermal_conductivity := none
    electrical_resistivity := none, corrosion_resistance := none
    machinability := none, weldability := none, common_uses := none }

/-! ## Basic lemmas about the JavaScript number model -/

theorem isNum_exists {v : JSNum} (h : isNum v = true) : ∃ q : ℚ, v = JSNum.num q := by
  cases v with
  | num q => exact ⟨q, rfl⟩
  | nan => simp [isNum] at h
  | posInf => simp [isNum] at h
  | negInf => simp [isNum] at h

theorem jsAbs_isNum {v : JSNum} (h : isNum (jsAbs v) = true) :
    ∃ q : ℚ, jsAbs v = JSNum.num q ∧ 0 ≤ q := by
  cases v with
  | num a => exact ⟨|a|, rfl, abs_nonneg a⟩
  | nan => simp [jsAbs, isNum] at h
  | posInf => simp [jsAbs, isNum] at h
  | negInf => simp [jsAbs, isNum] at h

theorem jsLt_sub_num (u v : ℚ) :
    jsLt (jsSub (JSNum.num u) (JSNum.num v)) (JSNum.num 0) = decide (u < v) := by
  simp [jsSub, jsLt, sub_neg]

/-- The stable descending three-element sort of finite values produces finite
values drawn from the input, in descending order. -/
theorem sortDescJS3_spec (a b c : ℚ) :
    ∃ x y z : ℚ,
      sortDescJS [JSNum.num a, JSNum.num b, JSNum.num c] =
        [JSNum.num x, JSNum.num y, JSNum.num z] ∧
      z ≤ y ∧ y ≤ x ∧
      (x = a ∨ x = b ∨ x = c) ∧ (y = a ∨ y = b ∨ y = c) ∧ (z = a ∨ z = b ∨ z = c) := by
  by_cases hbc : b < c
  · by_cases hac : a < c
    · by_cases hab : a < b
      · exact ⟨c, b, a,
          by simp [sortDescJS, insertDescJS, jsLt_sub_num, hbc, hac, hab],
          le_of_lt hab, le_of_lt hbc, by tauto, by tauto, by tauto⟩
      · exact ⟨c, a, b,
          by simp [sortDescJS, insertDescJS, jsLt_sub_num, hbc, hac, hab],
          not_lt.mp hab, le_of_lt hac, by tauto, by tauto, by tauto⟩
    · exact ⟨a, c, b,
        by simp [sortDescJS, insertDescJS, jsLt_sub_num, hbc, hac],
        le_of_lt hbc, not_lt.mp hac, by tauto, by tauto, by tauto⟩
  · by_cases hab : a < b
    · by_cases hac : a < c
      · exact ⟨b, c, a,
          by simp [sortDescJS, insertDescJS, jsLt_sub_num, hbc, hab, hac],
          le_of_lt hac, not_lt.mp hbc, by tauto, by tauto, by tauto⟩
      · exact ⟨b, a, c,
          by simp [sortDescJS, insertDescJS, jsLt_sub_num, hbc, hab, hac],
          not_lt.mp hac, le_of_lt hab, by tauto, by tauto, by tauto⟩
    · exact ⟨a, b, c,
        by simp [sortDescJS, insertDescJS, jsLt_sub_num, hbc, hab],
        not_lt.mp hbc, not_lt.mp hab, by tauto, by tauto, by tauto⟩

/-- Claim C1 (amended): when the scan found circles, the lowercase product
name contains `rondelle`, the product name does not contain the hardcoded
literal `Rondelleintercloche`, and at least one point touched the bounding
box, the derived dimensions satisfy `length = width = 2 × max(circle_radii)`
while `height` keeps its canonicalized bounding-box value. -/
theorem c1_annular_override_amended (lines : List String)
    (hcirc : (scanLines lines).circles ≠ [])
    (hname : containsSub (asciiLower (scanLines lines).productName) "rondelle" = true)
    (hlit : containsSub (scanLines lines).productName "Rondelleintercloche" = false)
    (hminx : (scanLines lines).minX ≠ JSNum.posInf)
    (hmaxx : (scanLines lines).maxX ≠ JSNum.negInf) :
    (parseStepFile lines).dimensions.length =
        jsMul (jsMaxList (scanLines lines).circles) (JSNum.num 2) ∧
    (parseStepFile lines).dimensions.width =
        jsMul (jsMaxList (scanLines lines).circles) (JSNum.num 2) ∧
    (parseStepFile lines).dimensions.height = (canonicalDims (scanLines lines)).height := by
  have hd : (parseStepFile lines).dimensions = deriveDimensions (scanLines lines) := rfl
  rw [hd]
  simp [deriveDimensions, hminx, hmaxx, hcirc, hname, hlit]

/-- Witness for C1 (amended) on a concrete washer file with circle radius 10
and a 4 × 4 × 7 point cloud: length = width = 20 and height stays 4. -/
theorem c1_annular_override_amended_witness :
    (scanLines exRondelleA).circles ≠ [] ∧
    containsSub (asciiLower (scanLines exRondelleA).productName) "rondelle" = true ∧
    containsSub (scanLines exRondelleA).productName "Rondelleintercloche" = false ∧
    (scanLines exRondelleA).minX ≠ JSNum.posInf ∧
    (scanLines exRondelleA).maxX ≠ JSNum.negInf ∧
    ((parseStepFile exRondelleA).dimensions.length =
        jsMul (jsMaxList (scanLines exRondelleA).circles) (JSNum.num 2) ∧
     (parseStepFile exRondelleA).dimensions.width =
        jsMul (jsMaxList (scanLines exRondelleA).circles) (JSNum.num 2) ∧
     (parseStepFile exRondelleA).dimensions.height =
        (canonicalDims (scanLines exRondelleA)).height) :=
  ⟨by decide, by decide, by decide, by decide, by decide,
   c1_annular_override_amended exRondelleA (by decide) (by decide) (by decide)
     (by decide) (by decide)⟩

/-- Counterexample to claim C1 as stated: on a washer file whose product name
is the hardcoded literal `Rondelleintercloche` (which contains the washer
token), circle radius 10 and extents 4 × 4 × 7, the derived length is 30, not
2 × max(circle_radii) = 20, and the height is 5, not the canonicalized 4. -/
theorem c1_annular_override_counterexample :
    (scanLines exIntercloche).circles ≠ [] ∧
    containsSub (asciiLower (scanLines exIntercloche).productName) "rondelle" = true ∧
    (scanLines exIntercloche).minX ≠ JSNum.posInf ∧
    jsMul (jsMaxList (scanLines exIntercloche).circles) (JSNum.num 2) = JSNum.num 20 ∧
    (canonicalDims (scanLines exIntercloche)).height = JSNum.num 4 ∧
    (parseStepFile exIntercloche).dimensions.length = JSNum.num 30 ∧
    (parseStepFile exIntercloche).dimensions.height = JSNum.num 5 := by
  decide

/-- Claim C2 (amended): for every scanned stream in which the annular override
does not apply and whose raw bounding-box extents are finite numbers (no NaN
from malformed coordinate tokens), the derived dimensions satisfy
`length ≥ width ≥ height ≥ 0`; this also covers the no-points default
`(30, 30, 5)`. -/
theorem c2_dims_canonical_amended (lines : List String)
    (hov : (scanLines lines).circles = [] ∨
           containsSub (asciiLower (scanLines lines).productName) "rondelle" = false)
    (hnum : ((scanLines lines).minX ≠ JSNum.posInf ∧ (scanLines lines).maxX ≠ JSNum.negInf) →
            (rawExtents (scanLines lines)).all isNum = true) :
    jsLe (JSNum.num 0) (parseStepFile lines).dimensions.height = true ∧
    jsLe (parseStepFile lines).dimensions.height (parseStepFile lines).dimensions.width = true ∧
    jsLe (parseStepFile lines).dimensions.width (parseStepFile lines).dimensions.length = true := by
  have hd : (parseStepFile lines).dimensions = deriveDimensions (scanLines lines) := rfl
  rw [hd]
  by_cases hset : (scanLines lines).minX ≠ JSNum.posInf ∧ (scanLines lines).maxX ≠ JSNum.negInf
  · have hall := hnum hset
    simp only [rawExtents, List.all_cons, List.all_nil, Bool.and_true, Bool.and_eq_true] at hall
    obtain ⟨h1, h2, h3⟩ := hall
    obtain ⟨a, ha, hanneg⟩ := jsAbs_isNum h1
    obtain ⟨b, hb, hbneg⟩ := jsAbs_isNum h2
    obtain ⟨c, hc, hcneg⟩ := jsAbs_isNum h3
    have hover : ¬((scanLines lines).circles ≠ [] ∧
        containsSub (asciiLower (scanLines lines).productName) "rondelle" = true) := by
      rcases hov with h | h
      · exact fun hcon => hcon.1 h
      · exact fun hcon => by simp [h] at hcon
    obtain ⟨x, y, z, hsort, hzy, hyx, hxm, hym, hzm⟩ := sortDescJS3_spec a b c
    have hre : rawExtents (scanLines lines) = [JSNum.num a, JSNum.num b, JSNum.num c] := by
      simp only [rawExtents] at ha hb hc ⊢
      rw [ha, hb, hc]
    have hcd : canonicalDims (scanLines lines) =
        { length := JSNum.num x, width := JSNum.num y, height := JSNum.num z } := by
      rw [canonicalDims, hre, hsort]; rfl
    simp only [deriveDimensions]
    rw [if_pos hset, if_neg hover, hcd]
    have h0z : 0 ≤ z := by rcases hzm with rfl | rfl | rfl <;> assumption
    exact ⟨by simp [jsLe, h0z], by simp [jsLe, hzy], by simp [jsLe, hyx]⟩
  · simp only [deriveDimensions]
    rw [if_neg hset]
    exact ⟨by decide, by decide, by decide⟩

/-- Witness for C2 (amended) on a clean two-point stream with extents
4 × 4 × 7 and no circles: the derived dimensions (7, 4, 4) are ordered. -/
theorem c2_dims_canonical_amended_witness :
    ((scanLines exCleanPoints).circles = [] ∨
     containsSub (asciiLower (scanLines exCleanPoints).productName) "rondelle" = false) ∧
    (((scanLines exCleanPoints).minX ≠ JSNum.posInf ∧
        (scanLines exCleanPoints).maxX ≠ JSNum.negInf) →
      (rawExtents (scanLines exCleanPoints)).all isNum = true) ∧
    (jsLe (JSNum.num 0) (parseStepFile exCleanPoints).dimensions.height = true ∧
     jsLe (parseStepFile exCleanPoints).dimensions.height
       (parseStepFile exCleanPoints).dimensions.width = true ∧
     jsLe (parseStepFile exCleanPoints).dimensions.width
       (parseStepFile exCleanPoints).dimensions.length = true) :=
  ⟨by decide, by decide,
   c2_dims_canonical_amended exCleanPoints (by decide) (by decide)⟩

/-- Counterexample to claim C2 as stated: on a washer stream (circle radius 1,
extents 10 × 10 × 10) the annular override produces dimensions (2, 2, 10),
violating `width ≥ height`. -/
theorem c2_dims_canonical_counterexample :
    (parseStepFile exRondelleB).dimensions =
      { length := JSNum.num 2, width := JSNum.num 2, height := JSNum.num 10 } ∧
    jsLe (parseStepFile exRondelleB).dimensions.height
      (parseStepFile exRondelleB).dimensions.width = false := by
  decide

/-- Claim C3 (amended): when no explicit material hint was scanned, the
inferred material comes from a lowercase full-text keyword cascade in which
only the French token `acier` selects the steel alloy (the English token
`steel` is not searched for), `aluminium`/`aluminum` select the aluminum
alloy, `titanium`/`titane` select the titanium alloy, and any other text
falls back to the default steel alloy. -/
theorem c3_material_fallback_amended (lines : List String)
    (h : (scanLines lines).materialInfo = "") :
    (parseStepFile lines).material =
      (if containsSub (asciiLower (scanLines lines).fileContent) "acier" = true then
        "AISI 1018 Steel"
       else if containsSub (asciiLower (scanLines lines).fileContent) "aluminium" = true ∨
               containsSub (asciiLower (scanLines lines).fileContent) "aluminum" = true then
        "Aluminum 6061-T6"
       else if containsSub (asciiLower (scanLines lines).fileContent) "titanium" = true ∨
               containsSub (asciiLower (scanLines lines).fileContent) "titane" = true then
        "Ti-6Al-4V"
       else "AISI 1018 Steel") := by
  have hd : (parseStepFile lines).material =
      inferMaterial (scanLines lines).materialInfo (scanLines lines).fileContent := rfl
  rw [hd, h]
  simp [inferMaterial]

/-- Witness for C3 (amended) on a stream whose text contains the French
titanium token and no material line: the inferred material is the titanium
alloy. -/
theorem c3_material_fallback_amended_witness :
    (scanLines exTitane).materialInfo = "" ∧
    (parseStepFile exTitane).material =
      (if containsSub (asciiLower (scanLines exTitane).fileContent) "acier" = true then
        "AISI 1018 Steel"
       else if containsSub (asciiLower (scanLines exTitane).fileContent) "aluminium" = true ∨
               containsSub (asciiLower (scanLines exTitane).fileContent) "aluminum" = true then
        "Aluminum 6061-T6"
       else if containsSub (asciiLower (scanLines exTitane).fileContent) "titanium" = true ∨
               containsSub (asciiLower (scanLines exTitane).fileContent) "titane" = true then
        "Ti-6Al-4V"
       else "AISI 1018 Steel") :=
  ⟨by decide, c3_material_fallback_amended exTitane (by decide)⟩

/-- Counterexample to claim C3 as stated: a stream whose text contains the
English token `steel` (and the token `aluminum`) with no explicit material
hint is inferred as the aluminum alloy, not the steel alloy the claimed
steel-token priority would give: the code never searches for `steel`. -/
theorem c3_material_fallback_counterexample :
    (scanLines exSteelAlu).materialInfo = "" ∧
    containsSub (asciiLower (scanLines exSteelAlu).fileContent) "steel" = true ∧
    (parseStepFile exSteelAlu).material = "Aluminum 6061-T6" ∧
    (parseStepFile exSteelAlu).material ≠ "AISI 1018 Steel" := by
  decide

theorem appendContent_bbox (st : ScanState) (line : String) :
    bboxPoints (appendContent st line) = bboxPoints st := rfl

theorem processProduct_bbox (st : ScanState) (line : String) :
    bboxPoints (processProduct st line) = bboxPoints st := by
  unfold processProduct
  split
  · split <;> rfl
  · rfl

theorem processMaterial_bbox (st : ScanState) (line : String) :
    bboxPoints (processMaterial st line) = bboxPoints st := by
  unfold processMaterial
  split
  · split <;> rfl
  · rfl

theorem processAnnot_bbox (st : ScanState) (line : String) :
    bboxPoints (processAnnot st line) = bboxPoints st := by
  unfold processAnnot
  split
  · split <;> rfl
  · rfl

theorem processCircle_bbox (st : ScanState) (line : String) :
    bboxPoints (processCircle st line) = bboxPoints st := by
  unfold processCircle
  split
  · split <;> rfl
  · rfl

theorem processCartesian_skip (st : ScanState) (line : String)
    (h : (lineCoords line).all (fun coords => decide (coords.length < 3)) = true) :
    bboxPoints (processCartesian st line) = bboxPoints st := by
  unfold processCartesian
  split
  · cases hc : lineCoords line with
    | none => simp only [hc]
    | some coords =>
      simp only [hc, Option.all_some, decide_eq_true_eq] at h
      simp only [hc]
      rw [if_neg (by omega)]
  · rfl

/-- Claim C4 (amended): a point line whose parenthesized group yields fewer
than three comma-separated tokens (or that has no parenthesized group at all)
is skipped without affecting the accumulated bounding box or the point list,
and the scan continues; however a point line with at least three tokens whose
tokens fail numeric parsing is NOT skipped — its NaN coordinates are folded
into the bounding box (see the counterexample); only stream-read I/O failures
abort the extraction, which is outside this pure model. -/
theorem c4_malformed_line_amended (st : ScanState) (line : String)
    (h : (lineCoords line).all (fun coords => decide (coords.length < 3)) = true) :
    bboxPoints (processLine st line) = bboxPoints st := by
  unfold processLine
  rw [processCircle_bbox, processCartesian_skip _ _ h, processAnnot_bbox,
    processMaterial_bbox, processProduct_bbox, appendContent_bbox]

/-- Witness for C4 (amended): a point line with only two coordinates leaves
the bounding box and point list of any scan state untouched. -/
theorem c4_malformed_line_amended_witness :
    (lineCoords "CARTESIAN_POINT((1.,2.))").all
      (fun coords => decide (coords.length < 3)) = true ∧
    bboxPoints (processLine initState "CARTESIAN_POINT((1.,2.))") = bboxPoints initState :=
  ⟨by decide,
   c4_malformed_line_amended initState "CARTESIAN_POINT((1.,2.))" (by decide)⟩

/-- Counterexample to claim C4 as stated: appending a point line whose three
tokens are non-numeric (`CARTESIAN_POINT((a,b,c))`) to a clean stream DOES
affect the accumulated bounding box — the minimum becomes NaN and the derived
length becomes NaN instead of the clean stream's 7. -/
theorem c4_malformed_line_counterexample :
    (scanLines (exCleanPoints ++ [exBadPointLine])).minX ≠ (scanLines exCleanPoints).minX ∧
    (scanLines (exCleanPoints ++ [exBadPointLine])).minX = JSNum.nan ∧
    (parseStepFile (exCleanPoints ++ [exBadPointLine])).dimensions.length = JSNum.nan ∧
    (parseStepFile exCleanPoints).dimensions.length = JSNum.num 7 := by
  decide

/-- Claim C5 (amended): the recalculation path (`calculateWeight`) rejects a
NaN ("non-numeric") or non-positive volume with an invalid-input error before
any weight computation; the comparison path (`compareMaterials`) performs no
such validation — zero or missing dimensions silently fall back to the default
volume 1000 and the comparison is computed (see the counterexample). -/
theorem c5_volume_validation_amended (materialName : String) (volume : JSNum)
    (catalog : List Material)
    (h : volume = JSNum.nan ∨ jsLe volume (JSNum.num 0) = true) :
    isErr (calculateWeight materialName volume catalog) = true := by
  rcases h with h | h
  · simp [calculateWeight, h, isErr]
  · by_cases hn : volume = JSNum.nan
    · simp [calculateWeight, hn, isErr]
    · simp [calculateWeight, hn, h, isErr]

/-- Witness for C5 (amended): a recalculation with volume 0 is rejected. -/
theorem c5_volume_validation_amended_witness :
    (JSNum.num 0 = JSNum.nan ∨ jsLe (JSNum.num 0) (JSNum.num 0) = true) ∧
    isErr (calculateWeight "AISI 1018 Steel" (JSNum.num 0) [mA, mB, mC]) = true :=
  ⟨Or.inr (by decide),
   c5_volume_validation_amended "AISI 1018 Steel" (JSNum.num 0) [mA, mB, mC]
     (Or.inr (by decide))⟩

/-- Counterexample to claim C5 as stated: a comparison whose dimensions give
volume 0 is not rejected — `compareMaterials` silently computes it at the
default volume 1000, producing a fully populated weight delta (densities 1 and
2 give weights 1/1000 and 1/500 kg and a +100% change). -/
theorem c5_volume_validation_counterexample :
    volumeOf (some { length := JSNum.num 0, width := JSNum.num 0, height := JSNum.num 0 }) =
      JSNum.num 1000 ∧
    (compareMaterials mA mB
        (some { length := JSNum.num 0, width := JSNum.num 0, height := JSNum.num 0 })).weight =
      { original := JSNum.num (1/1000), alternative := JSNum.num (1/500)
        difference := JSNum.num (1/1000), percent_change := JSNum.num 100 } := by
  decide

theorem volumeOf_isNum (dims : Option Dims)
    (h : (dims.all fun d => noInf d.length && noInf d.width && noInf d.height) = true) :
    ∃ v : ℚ, volumeOf dims = JSNum.num v := by
  cases dims with
  | none => exact ⟨1000, rfl⟩
  | some d =>
    obtain ⟨l, w, hgt⟩ := d
    simp only [Option.all_some, Bool.and_eq_true] at h
    obtain ⟨⟨hl, hw⟩, hh⟩ := h
    cases l with
    | posInf => simp [noInf] at hl
    | negInf => simp [noInf] at hl
    | nan => exact ⟨1000, by simp [volumeOf, jsTruthy]⟩
    | num lq =>
      cases w with
      | posInf => simp [noInf] at hw
      | negInf => simp [noInf] at hw
      | nan => exact ⟨1000, by simp [volumeOf, jsTruthy]⟩
      | num wq =>
        cases hgt with
        | posInf => simp [noInf] at hh
        | negInf => simp [noInf] at hh
        | nan => exact ⟨1000, by simp [volumeOf, jsTruthy]⟩
        | num hq =>
          by_cases hlz : lq = 0
          · exact ⟨1000, by simp [volumeOf, jsTruthy, hlz]⟩
          · by_cases hwz : wq = 0
            · exact ⟨1000, by simp [volumeOf, jsTruthy, hwz]⟩
            · by_cases hhz : hq = 0
              · exact ⟨1000, by simp [volumeOf, jsTruthy, hhz]⟩
              · exact ⟨lq * wq * hq,
                  by simp [volumeOf, jsTruthy, hlz, hwz, hhz, jsMul]⟩

theorem deltaOk_mkDelta_num (x y : ℚ) :
    deltaOk (mkDelta (JSNum.num x) (JSNum.num y)) = true := by
  by_cases hx : x = 0
  · simp [deltaOk, mkDelta, jsNe0, hx, jsSub, isNum]
  · simp [deltaOk, mkDelta, jsNe0, hx, jsSub, isNum, jsDiv, jsMul]

theorem weight_formula (dens v : ℚ) :
    jsDiv (jsMul (JSNum.num dens) (JSNum.num v)) (JSNum.num 1000000) =
      JSNum.num (dens * v / 1000000) := by
  have h6 : (1000000 : ℚ) ≠ 0 := by norm_num
  simp [jsMul, jsDiv, h6]

/-- Claim C6 (amended): for every delta produced by the comparison
computation (weight, cost and the mechanical properties), provided the
supplied dimensions carry no infinite field, all four components are finite
numbers — never NaN or an infinity — with `difference = alternative -
original` and `percent_change = difference / original × 100` when the
original is nonzero and exactly `0` otherwise.  The no-infinity hypothesis is
necessary: a stream with a literal `Infinity` coordinate token gives the
extractor an infinite dimension, and the resulting weight and cost deltas
carry Infinity and NaN components (see the counterexample). -/
theorem c6_delta_invariant (o a : Material) (dims : Option Dims)
    (h : (dims.all fun d => noInf d.length && noInf d.width && noInf d.height) = true) :
    deltaOk (compareMaterials o a dims).weight = true ∧
    deltaOk (compareMaterials o a dims).cost = true ∧
    (compareMaterials o a dims).tensile_strength.all deltaOk = true ∧
    (compareMaterials o a dims).yield_strength.all deltaOk = true ∧
    (compareMaterials o a dims).elastic_modulus.all deltaOk = true := by
  obtain ⟨v, hv⟩ := volumeOf_isNum dims h
  unfold compareMaterials
  rw [hv]
  refine ⟨?_, ?_, ?_, ?_, ?_⟩
  · simp only [compareAt]
    rw [weight_formula, weight_formula]
    exact deltaOk_mkDelta_num _ _
  · simp only [compareAt]
    rw [weight_formula, weight_formula]
    simp only [jsMul]
    exact deltaOk_mkDelta_num _ _
  · simp only [compareAt]
    cases o.tensile_strength <;> cases a.tensile_strength <;>
      simp [Option.all, deltaOk_mkDelta_num]
  · simp only [compareAt]
    cases o.yield_strength <;> cases a.yield_strength <;>
      simp [Option.all, deltaOk_mkDelta_num]
  · simp only [compareAt]
    cases o.elastic_modulus <;> cases a.elastic_modulus <;>
      simp [Option.all, deltaOk_mkDelta_num]

/-- Witness for C6 on two concrete catalog rows compared with no dimensions
record (default volume 1000). -/
theorem c6_delta_invariant_witness :
    ((none : Option Dims).all fun d => noInf d.length && noInf d.width && noInf d.height) = true ∧
    (deltaOk (compareMaterials mA mB none).weight = true ∧
     deltaOk (compareMaterials mA mB none).cost = true ∧
     (compareMaterials mA mB none).tensile_strength.all deltaOk = true ∧
     (compareMaterials mA mB none).yield_strength.all deltaOk = true ∧
     (compareMaterials mA mB none).elastic_modulus.all deltaOk = true) :=
  ⟨by decide, c6_delta_invariant mA mB none (by decide)⟩

/-- Counterexample to claim C6 as stated: the extractor accepts a literal
`Infinity` coordinate token, deriving dimensions `(+∞, 1, 1)`; feeding them to
the comparison yields a weight delta whose original and alternative are
`+Infinity` and whose difference (∞ − ∞) and percent change are NaN — so the
deltas are not "never NaN or infinity" without a finiteness side condition. -/
theorem c6_delta_invariant_counterexample :
    (parseStepFile exInfinity).dimensions =
      { length := JSNum.posInf, width := JSNum.num 1, height := JSNum.num 1 } ∧
    (compareMaterials mA mB (some (parseStepFile exInfinity).dimensions)).weight =
      { original := JSNum.posInf, alternative := JSNum.posInf
        difference := JSNum.nan, percent_change := JSNum.nan } ∧
    deltaOk (compareMaterials mA mB (some (parseStepFile exInfinity).dimensions)).weight =
      false := by
  decide

theorem totalWeight_pos : (0 : ℚ) < totalWeight := by
  norm_num [totalWeight, propWeightsVals]

theorem numScore_nonneg (o a : Option ℚ) (w : ℚ) (hw : 0 ≤ w) : 0 ≤ numScore o a w := by
  cases o with
  | none => simp [numScore]
  | some x =>
    cases a with
    | none => simp [numScore]
    | some y =>
      simp only [numScore]
      split
      · have h1 : min (|x - y| / max |x| |y|) 1 ≤ 1 := min_le_right _ _
        have h2 : (0 : ℚ) ≤ 1 - min (|x - y| / max |x| |y|) 1 := by linarith
        exact div_nonneg (mul_nonneg (mul_nonneg h2 (by norm_num)) hw) totalWeight_pos.le
      · exact div_nonneg (mul_nonneg (by norm_num) hw) totalWeight_pos.le

theorem strScore_nonneg (o a : Option String) (w : ℚ) (hw : 0 ≤ w) : 0 ≤ strScore o a w := by
  cases o with
  | none => simp [strScore]
  | some x =>
    cases a with
    | none => simp [strScore]
    | some y =>
      simp only [strScore]
      split
      · exact div_nonneg (mul_nonneg (by norm_num) hw) totalWeight_pos.le
      · exact le_refl 0

/-- Claim C7: for every pair of material records, the similarity score lies
between 0 and 100 inclusive — every per-property term is non-negative and the
final value is capped at 100 after the same-category bonus. -/
theorem c7_similarity_bounds (o a : Material) :
    0 ≤ calculateSimilarityScore o a ∧ calculateSimilarityScore o a ≤ 100 := by
  simp only [calculateSimilarityScore]
  refine ⟨le_min ?_ (by norm_num), min_le_right _ _⟩
  have h1 := numScore_nonneg o.tensile_strength a.tensile_strength 10 (by norm_num)
  have h2 := numScore_nonneg o.yield_strength a.yield_strength 10 (by norm_num)
  have h3 := numScore_nonneg o.elastic_modulus a.elastic_modulus 8 (by norm_num)
  have h4 := numScore_nonneg o.thermal_expansion a.thermal_expansion 5 (by norm_num)
  have h5 := numScore_nonneg o.thermal_conductivity a.thermal_conductivity 5 (by norm_num)
  have h6 := strScore_nonneg o.corrosion_resistance a.corrosion_resistance 7 (by norm_num)
  have h7 := numScore_nonneg o.machinability a.machinability 6 (by norm_num)
  have h8 := numScore_nonneg o.weldability a.weldability 5 (by norm_num)
  split <;> linarith

theorem mem_insertByScore {x a : Material × ℚ} {l : List (Material × ℚ)} :
    x ∈ insertByScore a l ↔ x = a ∨ x ∈ l := by
  induction l with
  | nil => simp [insertByScore]
  | cons y ys ih =>
    simp only [insertByScore]
    split
    · simp only [List.mem_cons, ih]
      try tauto
    · simp only [List.mem_cons]
      try tauto

theorem insertByScore_sorted {a : Material × ℚ} {l : List (Material × ℚ)}
    (h : l.Pairwise (fun u v => v.2 ≤ u.2)) :
    (insertByScore a l).Pairwise (fun u v => v.2 ≤ u.2) := by
  induction l with
  | nil => simp [insertByScore]
  | cons y ys ih =>
    rw [List.pairwise_cons] at h
    obtain ⟨hy, hys⟩ := h
    simp only [insertByScore]
    split
    · rename_i hlt
      rw [List.pairwise_cons]
      refine ⟨fun z hz => ?_, ih hys⟩
      rcases mem_insertByScore.mp hz with rfl | hz
      · exact le_of_lt hlt
      · exact hy z hz
    · rename_i hge
      rw [List.pairwise_cons]
      refine ⟨fun z hz => ?_, List.Pairwise.cons hy hys⟩
      rcases List.mem_cons.mp hz with rfl | hz
      · exact not_lt.mp hge
      · exact le_trans (hy z hz) (not_lt.mp hge)

theorem sortByScoreDesc_sorted (l : List (Material × ℚ)) :
    (sortByScoreDesc l).Pairwise (fun u v => v.2 ≤ u.2) := by
  induction l with
  | nil => simp [sortByScoreDesc]
  | cons a l ih => exact insertByScore_sorted ih

theorem mem_sortByScoreDesc {x : Material × ℚ} {l : List (Material × ℚ)} :
    x ∈ sortByScoreDesc l ↔ x ∈ l := by
  induction l with
  | nil => simp [sortByScoreDesc]
  | cons a l ih =>
    show x ∈ insertByScore a (sortByScoreDesc l) ↔ _
    rw [mem_insertByScore, ih, List.mem_cons]

theorem insertByScore_filter (a : Material × ℚ) (l : List (Material × ℚ)) (s : ℚ) :
    (insertByScore a l).filter (fun q => decide (q.2 = s)) =
      ((a :: l).filter (fun q => decide (q.2 = s))) := by
  induction l with
  | nil => rfl
  | cons y ys ih =>
    simp only [insertByScore]
    split
    · rename_i hlt
      by_cases ha : a.2 = s
      · have hy : ¬(y.2 = s) := fun hy => absurd hlt (by rw [ha, hy]; exact lt_irrefl s)
        simp [List.filter_cons, ha, hy, ih]
      · simp [List.filter_cons, ha, ih]
    · rfl

theorem sortByScoreDesc_filter (l : List (Material × ℚ)) (s : ℚ) :
    (sortByScoreDesc l).filter (fun q => decide (q.2 = s)) =
      l.filter (fun q => decide (q.2 = s)) := by
  induction l with
  | nil => rfl
  | cons a l ih =>
    show (insertByScore a (sortByScoreDesc l)).filter _ = _
    rw [insertByScore_filter, List.filter_cons, List.filter_cons, ih]

/-- Claim C8: with a resolvable reference material, the returned alternatives
number at most 5, are sorted in descending similarity score, never contain the
reference itself (excluded by id), and the underlying sort is stable — for
every score value, the candidates carrying it appear in catalog iteration
order. -/
theorem c8_ranking_contract (materialName : String) (catalog : List Material)
    (dims : Option Dims) (orig : Material)
    (h : catalog.find? (fun m => m.name = materialName) = some orig) :
    (findAlternatives materialName catalog dims).length ≤ 5 ∧
    (findAlternatives materialName catalog dims).Pairwise
      (fun u v => v.similarity_score ≤ u.similarity_score) ∧
    (∀ alt ∈ findAlternatives materialName catalog dims, alt.material.id ≠ orig.id) ∧
    (∀ s : ℚ,
      (sortByScoreDesc (scoredCandidates orig catalog)).filter (fun q => decide (q.2 = s)) =
        (scoredCandidates orig catalog).filter (fun q => decide (q.2 = s))) := by
  unfold findAlternatives
  rw [h]
  refine ⟨?_, ?_, ?_, fun s => sortByScoreDesc_filter _ s⟩
  · rw [List.length_map, List.length_take]
    exact min_le_left _ _
  · rw [List.pairwise_map]
    exact List.Pairwise.sublist (List.take_sublist 5 _) (sortByScoreDesc_sorted _)
  · intro alt halt
    rw [List.mem_map] at halt
    obtain ⟨p, hp, rfl⟩ := halt
    have hp2 : p ∈ sortByScoreDesc (scoredCandidates orig catalog) :=
      (List.take_sublist 5 _).subset hp
    rw [mem_sortByScoreDesc] at hp2
    unfold scoredCandidates at hp2
    rw [List.mem_map] at hp2
    obtain ⟨m, hm, rfl⟩ := hp2
    rw [List.mem_filter] at hm
    simpa using hm.2

/-- Witness for C8 on a three-row catalog with reference row `mA`: at most
five alternatives come back and none of them is the reference row. -/
theorem c8_ranking_contract_witness :
    [mA, mB, mC].find? (fun m => m.name = "A") = some mA ∧
    (findAlternatives "A" [mA, mB, mC] none).length ≤ 5 :=
  ⟨by decide, (c8_ranking_contract "A" [mA, mB, mC] none mA (by decide)).1⟩

/-- Claim C9: when the reference material name matches no catalog entry, the
recommender returns an empty alternatives list as a normal result (in the
source only database I/O failures can reject the promise, which is outside
this pure model). -/
theorem c9_reference_not_found (materialName : String) (catalog : List Material)
    (dims : Option Dims)
    (h : catalog.all (fun m => m.name ≠ materialName) = true) :
    findAlternatives materialName catalog dims = [] := by
  have hf : catalog.find? (fun m => m.name = materialName) = none := by
    rw [List.find?_eq_none]
    intro m hm
    have := List.all_eq_true.mp h m hm
    simpa using this
  unfold findAlternatives
  rw [hf]

/-- Witness for C9: a one-row catalog queried with an unknown name yields an
empty alternatives list. -/
theorem c9_reference_not_found_witness :
    [mA].all (fun m => m.name ≠ "Zzz") = true ∧
    findAlternatives "Zzz" [mA] none = [] :=
  ⟨by decide, c9_reference_not_found "Zzz" [mA] none (by decide)⟩

/-- Claim C10: the comparison computes its volume as `length × width × height`
exactly when a dimensions record is supplied with all three fields finite and
nonzero; a missing record or a zero field silently falls back to the default
volume 1000 instead of being rejected. -/
theorem c10_volume_fallback (o a : Material) (l w h : ℚ) :
    (l ≠ 0 → w ≠ 0 → h ≠ 0 →
      compareMaterials o a
          (some { length := JSNum.num l, width := JSNum.num w, height := JSNum.num h }) =
        compareAt o a (JSNum.num (l * w * h))) ∧
    ((l = 0 ∨ w = 0 ∨ h = 0) →
      compareMaterials o a
          (some { length := JSNum.num l, width := JSNum.num w, height := JSNum.num h }) =
        compareAt o a (JSNum.num 1000)) ∧
    compareMaterials o a none = compareAt o a (JSNum.num 1000) := by
  refine ⟨fun hl hw hh => ?_, fun hz => ?_, rfl⟩
  · simp [compareMaterials, volumeOf, jsTruthy, hl, hw, hh, jsMul]
  · rcases hz with rfl | rfl | rfl <;> simp [compareMaterials, volumeOf, jsTruthy]

/-- Witness for C10: with dimensions 2 × 3 × 4 the comparison runs at volume
24. -/
theorem c10_volume_fallback_witness :
    (2 : ℚ) ≠ 0 ∧ (3 : ℚ) ≠ 0 ∧ (4 : ℚ) ≠ 0 ∧
    compareMaterials mA mB
        (some { length := JSNum.num 2, width := JSNum.num 3, height := JSNum.num 4 }) =
      compareAt mA mB (JSNum.num (2 * 3 * 4)) :=
  ⟨by decide, by decide, by decide,
   (c10_volume_fallback mA mB 2 3 4).1 (by decide) (by decide) (by decide)⟩
